import Mathlib

set_option maxHeartbeats 1000000

/-!
Verification of the FastGPT knowledge-base Python client (`fastgpt.py`).

The development shallowly embeds the client's pure logic: JSON payload
construction, response parsing, the service-level error check of the
internal `_request` helper, and the control flow of
`create_file_collection` (file resolution, extension validation, staged
temporary file lifecycle, multipart upload, cleanup).  Filesystem and
network effects are modelled by an explicit environment record of oracles
and an event trace of the network requests the call issues.
-/

/-- JSON values, as produced by `response.json()` and placed in payload
dictionaries.  Numbers are modelled as integers (every numeric literal the
client sends or the claims mention is an integer). -/
inductive JValue where
  | null
  | bool (b : Bool)
  | num (n : Int)
  | str (s : String)
  | arr (xs : List JValue)
  | obj (fields : List (String × JValue))

/-- `d.get(k)` on a parsed JSON object: the value of the first binding of
`k`, if any. -/
def lookup_field (fields : List (String × JValue)) (k : String) : Option JValue :=
  (fields.find? (fun kv => kv.1 = k)).map (fun kv => kv.2)

/-!
## Payload segments shared by the collection-creation operations

`create_text_collection` (fastgpt.py lines 260-291), `create_link_collection`
(lines 321-350) and `create_file_collection` (lines 438-466) all build their
payload dictionary by starting from a base dictionary and then conditionally
assigning additional keys.  Every conditionally assigned key is fresh, so
Python's insertion order makes the dictionary equal to the base followed by
the conditional segments in program order.  Each segment below embeds one of
those conditional assignments; `if chunk_splitter:`, `if qa_prompt:`,
`if tags:` and `if create_time:` are Python truthiness tests (non-empty
string / non-empty list), and `is not None` tests are `Option.isSome`.
-/

/-- Segment for an `Optional[bool]` parameter assigned only when it
`is not None` (e.g. `indexPrefixTitle`, `autoIndexes`, `imageIndex`). -/
def opt_bool_seg (key : String) (v : Option Bool) : List (String × JValue) :=
  match v with
  | some b => [(key, JValue.bool b)]
  | none => []

/-- Segment added by `if chunk_setting_mode == "custom":` — the
`chunkSplitMode`, `chunkSize`, `indexSize` assignments plus the nested
`if chunk_splitter:` assignment of `chunkSplitter`. -/
def chunk_param_seg (chunk_setting_mode chunk_split_mode : String)
    (chunk_size index_size : Int) (chunk_splitter : String) : List (String × JValue) :=
  if chunk_setting_mode = "custom" then
    [("chunkSplitMode", JValue.str chunk_split_mode),
     ("chunkSize", JValue.num chunk_size),
     ("indexSize", JValue.num index_size)] ++
    (if chunk_splitter = "" then [] else [("chunkSplitter", JValue.str chunk_splitter)])
  else []

/-- Segment added by `if training_type == "qa" and qa_prompt:`. -/
def qa_seg (training_type qa_prompt : String) : List (String × JValue) :=
  if training_type = "qa" ∧ qa_prompt ≠ "" then [("qaPrompt", JValue.str qa_prompt)] else []

/-- Segment added by `if tags:` (a non-empty list). -/
def tags_seg (tags : Option (List String)) : List (String × JValue) :=
  match tags with
  | some ts => if ts = [] then [] else [("tags", JValue.arr (ts.map JValue.str))]
  | none => []

/-- Segment added by `if create_time:` (a non-empty string). -/
def create_time_seg (create_time : Option String) : List (String × JValue) :=
  match create_time with
  | some t => if t = "" then [] else [("createTime", JValue.str t)]
  | none => []

/-- Parameters of `create_text_collection`, with the source's default
values (fastgpt.py lines 235-254). -/
structure TextParams where
  text : String
  dataset_id : String
  name : String
  training_type : String := "chunk"
  parent_id : Option String := none
  index_prefix_title : Option Bool := none
  custom_pdf_parse : Bool := false
  auto_indexes : Option Bool := none
  image_index : Option Bool := none
  chunk_setting_mode : String := "auto"
  chunk_split_mode : String := "size"
  chunk_size : Int := 1500
  index_size : Int := 512
  chunk_splitter : String := ""
  qa_prompt : String := ""
  tags : Option (List String) := none
  create_time : Option String := none
  metadata : Option (List (String × JValue)) := none

/-- `None` maps to JSON null, a string to a JSON string. -/
def jopt_str : Option String → JValue
  | none => JValue.null
  | some s => JValue.str s

/-- Base payload dictionary of `create_text_collection`
(fastgpt.py lines 260-269); `metadata or {}` maps a missing metadata
argument to the empty object. -/
def text_base_payload (p : TextParams) : List (String × JValue) :=
  [("text", JValue.str p.text),
   ("datasetId", JValue.str p.dataset_id),
   ("name", JValue.str p.name),
   ("parentId", jopt_str p.parent_id),
   ("trainingType", JValue.str p.training_type),
   ("customPdfParse", JValue.bool p.custom_pdf_parse),
   ("chunkSettingMode", JValue.str p.chunk_setting_mode),
   ("metadata", JValue.obj (p.metadata.getD []))]

/-- The full payload dictionary posted by `create_text_collection`
(fastgpt.py lines 260-291): base dictionary followed by the conditional
segments in program order. -/
def create_text_collection_payload (p : TextParams) : List (String × JValue) :=
  text_base_payload p ++
  chunk_param_seg p.chunk_setting_mode p.chunk_split_mode p.chunk_size p.index_size
    p.chunk_splitter ++
  qa_seg p.training_type p.qa_prompt ++
  opt_bool_seg "indexPrefixTitle" p.index_prefix_title ++
  opt_bool_seg "autoIndexes" p.auto_indexes ++
  opt_bool_seg "imageIndex" p.image_index ++
  tags_seg p.tags ++
  create_time_seg p.create_time

/-!
## Transport layer: `FastGPTKnowledgeBase._request` (fastgpt.py lines 145-158)

Every client operation except the multipart file upload goes through
`_request`, which issues the HTTP call, calls `raise_for_status()`, parses
the JSON body, and applies the service-level check

  `if res_json.get('code') and res_json['code'] not in [200, 201]: raise ...`

re-wrapping any exception as `Exception(f"Request Failed: {str(e)}")`.
The HTTP call, `raise_for_status` and JSON parsing are external effects,
modelled by an `httpError` oracle: `some m` when any of them raises an
exception whose `str` is `m` (e.g. a non-2xx transport status), `none`
when the transport succeeds (e.g. HTTP status 200) and the body parses.
-/

/-- A single quote character, used by Python `repr`. -/
def pySq : String := String.singleton (Char.ofNat 39)

mutual

/-- Python `repr` of a JSON value (as used by `str()` on containers).
Escape sequences inside `repr` of strings are not reproduced; no client
string requires them. -/
def pyRepr : JValue → String
  | JValue.null => "None"
  | JValue.bool true => "True"
  | JValue.bool false => "False"
  | JValue.num n => toString n
  | JValue.str s => pySq ++ s ++ pySq
  | JValue.arr xs => "[" ++ pyReprList xs ++ "]"
  | JValue.obj fields => "\x7b" ++ pyReprFields fields ++ "\x7d"

/-- Python `repr` of the elements of a list, comma separated. -/
def pyReprList : List JValue → String
  | [] => ""
  | [x] => pyRepr x
  | x :: xs => pyRepr x ++ ", " ++ pyReprList xs

/-- Python `repr` of the entries of a dict, comma separated. -/
def pyReprFields : List (String × JValue) → String
  | [] => ""
  | [(k, v)] => pySq ++ k ++ pySq ++ ": " ++ pyRepr v
  | (k, v) :: kvs => pySq ++ k ++ pySq ++ ": " ++ pyRepr v ++ ", " ++ pyReprFields kvs

end

/-- Python `str()` of a JSON value: a string is itself, anything else
renders as its `repr`. -/
def py_str : JValue → String
  | JValue.str s => s
  | v => pyRepr v

/-- Python `str()` of the result of `d.get(k)`: a missing key is `None`. -/
def py_str_get : Option JValue → String
  | none => "None"
  | some v => py_str v

/-- Python truthiness of a JSON value (`if res_json.get('code')`). -/
def jvalue_truthy : JValue → Bool
  | JValue.null => false
  | JValue.bool b => b
  | JValue.num n => n != 0
  | JValue.str s => s != ""
  | JValue.arr xs => !xs.isEmpty
  | JValue.obj fields => !fields.isEmpty

/-- Python `res_json['code'] in [200, 201]` under `==` semantics: among
JSON values only the numbers 200 and 201 compare equal to 200 or 201. -/
def code_in_success_list : JValue → Bool
  | JValue.num n => n == 200 || n == 201
  | _ => false

/-- The result `_request` hands to its caller: the parsed body on success,
or the single normalized `"Request Failed: ..."` error message
(fastgpt.py lines 145-158). -/
def request_result (httpError : Option String) (body : List (String × JValue)) :
    Except String (List (String × JValue)) :=
  match httpError with
  | some m => Except.error ("Request Failed: " ++ m)
  | none =>
    match lookup_field body "code" with
    | some c =>
      if jvalue_truthy c && !code_in_success_list c then
        Except.error ("Request Failed: " ++
          ("FastGPT API Error: " ++ py_str_get (lookup_field body "message")))
      else Except.ok body
    | none => Except.ok body

/-- Substring test: `t` occurs contiguously in `s`. -/
def strContains (s t : String) : Bool :=
  (List.range (s.length + 1)).any (fun i => t.data.isPrefixOf (s.data.drop i))

/-!
## Response models: `ModelConfig` and `DatasetDetail.from_dict`
(fastgpt.py lines 27-67)

The dataclasses perform no type coercion — each field stores whatever JSON
value was supplied — so fields are modelled as `JValue`.  `ModelConfig` has
no defaults, so `ModelConfig(**d)` requires the keyword set to be exactly
its four fields; a missing or extra key raises `TypeError`, modelled as an
error value (the embedding does not reproduce `TypeError` message texts,
which no caller inspects).
-/

/-- `**`-unpacking requires a mapping: the object's fields, or an error for
any other JSON value. -/
def as_obj : JValue → Except String (List (String × JValue))
  | JValue.obj fields => Except.ok fields
  | _ => Except.error "TypeError: argument after ** must be a mapping"

/-- Model configuration record (fastgpt.py lines 27-33). -/
structure ModelConfig where
  model : JValue
  name : JValue
  charsPointsPrice : JValue
  defaultToken : JValue

/-- `ModelConfig(**d)`: the keyword set must be exactly the four dataclass
fields (none has a default). -/
def ModelConfig.from_kwargs (d : List (String × JValue)) : Except String ModelConfig :=
  match lookup_field d "model", lookup_field d "name",
      lookup_field d "charsPointsPrice", lookup_field d "defaultToken" with
  | some m, some n, some c, some t =>
    if d.all (fun kv => kv.1 = "model" || kv.1 = "name" || kv.1 = "charsPointsPrice"
        || kv.1 = "defaultToken") then
      Except.ok ⟨m, n, c, t⟩
    else Except.error "TypeError: unexpected keyword argument"
  | _, _, _, _ => Except.error "TypeError: missing required argument"

/-- Knowledge-base detail record (fastgpt.py lines 35-49). -/
structure DatasetDetail where
  id : JValue
  parentId : JValue
  type : JValue
  name : JValue
  avatar : JValue
  intro : JValue
  status : JValue
  permission : JValue
  vectorModel : ModelConfig
  agentModel : ModelConfig
  canWrite : JValue
  isOwner : JValue

/-- `DatasetDetail.from_dict` (fastgpt.py lines 51-67): `data.get(k, dflt)`
defaults for the plain fields, and `ModelConfig(**data.get(k, {}))` for the
two nested model configurations (evaluated vectorModel first). -/
def DatasetDetail.from_dict (data : List (String × JValue)) : Except String DatasetDetail := do
  let vmFields ← as_obj ((lookup_field data "vectorModel").getD (JValue.obj []))
  let vm ← ModelConfig.from_kwargs vmFields
  let amFields ← as_obj ((lookup_field data "agentModel").getD (JValue.obj []))
  let am ← ModelConfig.from_kwargs amFields
  Except.ok
    { id := (lookup_field data "_id").getD (JValue.str "")
      parentId := (lookup_field data "parentId").getD JValue.null
      type := (lookup_field data "type").getD (JValue.str "dataset")
      name := (lookup_field data "name").getD (JValue.str "")
      avatar := (lookup_field data "avatar").getD (JValue.str "")
      intro := (lookup_field data "intro").getD (JValue.str "")
      status := (lookup_field data "status").getD (JValue.str "")
      permission := (lookup_field data "permission").getD (JValue.str "")
      vectorModel := vm
      agentModel := am
      canWrite := (lookup_field data "canWrite").getD (JValue.bool false)
      isOwner := (lookup_field data "isOwner").getD (JValue.bool false) }

/-!
## String primitives used by `create_file_collection`

`create_file_collection` resolves its `file_path` argument with
`str.startswith`, `urllib.parse.urlparse(...).path`,
`urllib.parse.unquote`, `os.path.basename`, `str.split('.')[-1].lower()`
and `urllib.parse.quote(..., safe='')`.  These standard-library functions
are embedded below at the character level (Lean's built-in byte-position
string functions do not reduce inside the kernel).
-/

/-- Python `s.startswith(pfx)`. -/
def str_starts_with (s pfx : String) : Bool := pfx.data.isPrefixOf s.data

/-- `urllib.parse.urlparse(url).path` for URLs carrying an `http`/`https`
scheme: drop the scheme, drop the netloc (up to the first `/`, `?` or
`#`), and keep the path up to the query or fragment. -/
def urlparse_path (url : String) : String :=
  let rest :=
    if str_starts_with url "http://" then url.data.drop 7
    else if str_starts_with url "https://" then url.data.drop 8
    else url.data
  let afterNetloc := rest.dropWhile (fun c => c ≠ '/' && c ≠ '?' && c ≠ '#')
  match afterNetloc with
  | [] => ""
  | c :: _ =>
    if c = '/' then String.mk (afterNetloc.takeWhile (fun c => c ≠ '?' && c ≠ '#'))
    else ""

/-- The characters after the last occurrence of `sep` (the whole list if
`sep` does not occur). -/
def after_last (sep : Char) (l : List Char) : List Char :=
  (l.reverse.takeWhile (fun c => c ≠ sep)).reverse

/-- POSIX `os.path.basename`: everything after the last `/`. -/
def os_path_basename (p : String) : String := String.mk (after_last '/' p.data)

/-- Value of a hexadecimal digit, as accepted by `urllib.parse.unquote`. -/
def hexVal (c : Char) : Option Nat :=
  if '0' ≤ c ∧ c ≤ '9' then some (c.toNat - 48)
  else if 'A' ≤ c ∧ c ≤ 'F' then some (c.toNat - 55)
  else if 'a' ≤ c ∧ c ≤ 'f' then some (c.toNat - 87)
  else none

/-- Token stream for `unquote`: a literal character, or a byte decoded
from a `%XX` escape. -/
inductive QTok where
  | ch (c : Char)
  | byte (b : Nat)
deriving DecidableEq

/-- First pass of `urllib.parse.unquote`: each `%XX` with two hex digits
becomes a byte, anything else stays a literal character. -/
def unquoteToks : List Char → List QTok
  | [] => []
  | '%' :: c1 :: c2 :: rest =>
    match hexVal c1, hexVal c2 with
    | some h, some l => QTok.byte (h * 16 + l) :: unquoteToks rest
    | _, _ => QTok.ch '%' :: unquoteToks (c1 :: c2 :: rest)
  | c :: rest => QTok.ch c :: unquoteToks rest

/-- U+FFFD, produced for invalid UTF-8 (Python decodes percent-escaped
byte runs with `errors='replace'`). -/
def uReplChar : Char := Char.ofNat 0xFFFD

/-- A UTF-8 continuation byte. -/
def isContByte (b : Nat) : Bool := 0x80 ≤ b && b ≤ 0xBF

/-- Valid first continuation byte after a three-byte lead (excludes
overlong encodings and surrogates). -/
def cont2ok (b b1 : Nat) : Bool :=
  if b = 0xE0 then 0xA0 ≤ b1 && b1 ≤ 0xBF
  else if b = 0xED then 0x80 ≤ b1 && b1 ≤ 0x9F
  else isContByte b1

/-- Valid first continuation byte after a four-byte lead. -/
def cont3ok (b b1 : Nat) : Bool :=
  if b = 0xF0 then 0x90 ≤ b1 && b1 ≤ 0xBF
  else if b = 0xF4 then 0x80 ≤ b1 && b1 ≤ 0x8F
  else isContByte b1

/-- Second pass of `unquote`: literal characters pass through, runs of
decoded bytes are UTF-8-decoded with replacement.  The fuel argument is
the token count; every step consumes at least one token, so the first
pattern is never reached when called with `toks.length`. -/
def unquoteAuxF : Nat → List QTok → List Char
  | 0, _ => []
  | _, [] => []
  | n+1, QTok.ch c :: rest => c :: unquoteAuxF n rest
  | n+1, QTok.byte b :: rest =>
    if b < 0x80 then Char.ofNat b :: unquoteAuxF n rest
    else if 0xC2 ≤ b && b ≤ 0xDF then
      match rest with
      | QTok.byte b1 :: rest2 =>
        if isContByte b1 then
          Char.ofNat ((b - 0xC0) * 0x40 + (b1 - 0x80)) :: unquoteAuxF n rest2
        else uReplChar :: unquoteAuxF n rest
      | _ => uReplChar :: unquoteAuxF n rest
    else if 0xE0 ≤ b && b ≤ 0xEF then
      match rest with
      | QTok.byte b1 :: QTok.byte b2 :: rest3 =>
        if cont2ok b b1 && isContByte b2 then
          Char.ofNat ((b - 0xE0) * 0x1000 + (b1 - 0x80) * 0x40 + (b2 - 0x80))
            :: unquoteAuxF n rest3
        else uReplChar :: unquoteAuxF n rest
      | _ => uReplChar :: unquoteAuxF n rest
    else if 0xF0 ≤ b && b ≤ 0xF4 then
      match rest with
      | QTok.byte b1 :: QTok.byte b2 :: QTok.byte b3 :: rest4 =>
        if cont3ok b b1 && isContByte b2 && isContByte b3 then
          Char.ofNat ((b - 0xF0) * 0x40000 + (b1 - 0x80) * 0x1000 + (b2 - 0x80) * 0x40
            + (b3 - 0x80)) :: unquoteAuxF n rest4
        else uReplChar :: unquoteAuxF n rest
      | _ => uReplChar :: unquoteAuxF n rest
    else uReplChar :: unquoteAuxF n rest

/-- `urllib.parse.unquote`: percent-decoding with UTF-8 `errors='replace'`. -/
def py_unquote (s : String) : String :=
  let toks := unquoteToks s.data
  String.mk (unquoteAuxF toks.length toks)

/-- UTF-8 encoding of one character, as `quote` applies to its input. -/
def char_utf8_bytes (c : Char) : List Nat :=
  let n := c.toNat
  if n < 0x80 then [n]
  else if n < 0x800 then [0xC0 + n / 0x40, 0x80 + n % 0x40]
  else if n < 0x10000 then [0xE0 + n / 0x1000, 0x80 + (n / 0x40) % 0x40, 0x80 + n % 0x40]
  else [0xF0 + n / 0x40000, 0x80 + (n / 0x1000) % 0x40, 0x80 + (n / 0x40) % 0x40, 0x80 + n % 0x40]

/-- The bytes `urllib.parse.quote` never encodes (ASCII letters, digits,
`_`, `.`, `-`, `~`); everything else is escaped when `safe=''`. -/
def always_safe_byte (b : Nat) : Bool :=
  (0x41 ≤ b && b ≤ 0x5A) || (0x61 ≤ b && b ≤ 0x7A) || (0x30 ≤ b && b ≤ 0x39) ||
  b == 0x5F || b == 0x2E || b == 0x2D || b == 0x7E

/-- Upper-case hexadecimal digit, as `quote` emits. -/
def hexUpperDigit (n : Nat) : Char :=
  if n < 10 then Char.ofNat (0x30 + n) else Char.ofNat (0x37 + n)

/-- `urllib.parse.quote(s, safe='')`: UTF-8 encode, keep always-safe
bytes, percent-encode every other byte (no extra characters exempt). -/
def py_quote_safe_empty (s : String) : String :=
  String.mk ((s.data.foldr (fun c acc => char_utf8_bytes c ++ acc) []).foldr
    (fun b acc =>
      (if always_safe_byte b then [Char.ofNat b]
       else ['%', hexUpperDigit (b / 16), hexUpperDigit (b % 16)]) ++ acc) [])

/-- Python `str.lower()` (ASCII case folding; no extension in the
allow-set contains a character affected by non-ASCII case rules). -/
def py_lower (s : String) : String := String.mk (s.data.map Char.toLower)

/-- `filename.split('.')[-1].lower() if '.' in filename else ''`
(fastgpt.py lines 399 and 425). -/
def file_ext_of (filename : String) : String :=
  if filename.data.contains '.' then py_lower (String.mk (after_last '.' filename.data)) else ""

/-!
## `create_file_collection` (fastgpt.py lines 357-494)

The operation resolves `file_path` (URL download staged through a
temporary file, or local path), validates the extension against the
allow-set, builds the multipart form metadata, uploads, extracts the
collection id, and in a `finally` block best-effort-deletes the temporary
file.  External effects are oracles in `FileEnv`; the network requests
actually issued (`requests.get` for the download, `requests.post` for the
upload) are recorded as an event trace.  Python exceptions are modelled by
`PyError`, keeping the runtime type of the raised exception so that error
kinds remain distinguishable in the model; `str(e)` of each carries the
message.  The outer `except Exception as e: raise Exception(f"File Upload
Failed: {str(e)}")` wraps every inner error into a plain `Exception`.
-/

/-- `ALLOWED_EXTENSIONS` (fastgpt.py line 386).  The source literal is a
Python `set`, whose iteration order in the error message is unspecified;
the embedding fixes the literal order. -/
def ALLOWED_EXTENSIONS : List String := ["pdf", "xlsx", "pptx", "docx", "md", "txt"]

/-- Message of the `ValueError` raised for a disallowed extension
(fastgpt.py lines 401-404 and 427-430). -/
def unsupported_format_msg (ext : String) : String :=
  "不支持的文件格式: " ++ ext ++ ". " ++ "仅允许以下格式: " ++
    String.intercalate ", " ALLOWED_EXTENSIONS

/-- `file_path.startswith('http://') or file_path.startswith('https://')`
(fastgpt.py line 389). -/
def is_url_path (file_path : String) : Bool :=
  str_starts_with file_path "http://" || str_starts_with file_path "https://"

/-- `os.path.basename(unquote(urlparse(file_path).path))`
(fastgpt.py lines 395-396). -/
def url_filename_of (file_path : String) : String :=
  os_path_basename (py_unquote (urlparse_path file_path))

/-- The runtime type and message of a raised Python exception. -/
inductive PyError where
  | valueError (msg : String)
  | fileNotFoundError (msg : String)
  | keyError (msg : String)
  | exception (msg : String)
deriving DecidableEq

/-- `str(e)`: the exception's message (for `KeyError` the stored message
is already the quoted key, as `str` renders it). -/
def PyError.str_of : PyError → String
  | PyError.valueError m => m
  | PyError.fileNotFoundError m => m
  | PyError.keyError m => m
  | PyError.exception m => m

/-- A network request issued during `create_file_collection`. -/
inductive NetEvent where
  | get (url : String)
  | post (url : String)
deriving DecidableEq

/-- Oracles for the external effects of one `create_file_collection`
call: local-filesystem existence, the URL download (`requests.get` +
`raise_for_status`), the multipart upload (`requests.post` +
`raise_for_status` + `response.json()`), and whether `os.unlink` of the
temporary file succeeds. -/
structure FileEnv where
  localExists : String → Bool
  downloadOk : Bool
  downloadErrMsg : String
  downloadContent : List Nat
  uploadOk : Bool
  uploadErrMsg : String
  uploadResp : Option JValue
  unlinkOk : Bool

/-- Parameters of `create_file_collection`, with the source's default
values (fastgpt.py lines 357-376). -/
structure FCParams where
  dataset_id : String
  file_path : String
  training_type : String := "chunk"
  name : Option String := none
  parent_id : Option String := none
  index_prefix_title : Option Bool := some true
  custom_pdf_parse : Bool := true
  auto_indexes : Option Bool := none
  image_index : Option Bool := some true
  chunk_setting_mode : String := "auto"
  chunk_split_mode : String := "size"
  chunk_size : Int := 1500
  index_size : Int := 512
  chunk_splitter : String := ""
  qa_prompt : String := ""
  tags : Option (List String) := none
  create_time : Option String := none
  metadata : Option (List (String × JValue)) := none

/-- Observable outcome of one `create_file_collection` call: the result
handed to the caller (after the outer wrapping), the error raised inside
the `try` body if any, whether a temporary file was created and with what
content, whether it still exists after the `finally` cleanup, the encoded
filename placed in the multipart `file` field, the form metadata, and the
trace of network requests. -/
structure FCOutcome where
  res : Except PyError JValue
  innerErr : Option PyError
  tempCreated : Bool
  tempContent : Option (List Nat)
  tempExistsAfter : Bool
  uploadedFilename : Option String
  formMetadata : Option (List (String × JValue))
  events : List NetEvent

/-- The multipart form metadata dictionary (fastgpt.py lines 438-466),
assembled with the same conditional segments as the text operation. -/
def file_form_metadata (p : FCParams) : List (String × JValue) :=
  [("datasetId", JValue.str p.dataset_id),
   ("parentId", jopt_str p.parent_id),
   ("trainingType", JValue.str p.training_type),
   ("customPdfParse", JValue.bool p.custom_pdf_parse),
   ("chunkSettingMode", JValue.str p.chunk_setting_mode),
   ("metadata", JValue.obj (p.metadata.getD []))] ++
  chunk_param_seg p.chunk_setting_mode p.chunk_split_mode p.chunk_size p.index_size
    p.chunk_splitter ++
  qa_seg p.training_type p.qa_prompt ++
  opt_bool_seg "indexPrefixTitle" p.index_prefix_title ++
  opt_bool_seg "autoIndexes" p.auto_indexes ++
  opt_bool_seg "imageIndex" p.image_index ++
  tags_seg p.tags ++
  create_time_seg p.create_time

/-- `name if name else filename` (fastgpt.py line 435): a `None` or empty
override falls back to the derived filename. -/
def chosen_upload_name (name : Option String) (filename : String) : String :=
  match name with
  | some n => if n = "" then filename else n
  | none => filename

/-- `quote(name if name else filename, safe='')` (fastgpt.py line 435). -/
def encoded_upload_filename (name : Option String) (filename : String) : String :=
  py_quote_safe_empty (chosen_upload_name name filename)

/-- `try: return res_json['data']['collectionId'] except: return
res_json['data']` (fastgpt.py lines 482-485): the nested field when the
data payload is an object containing it, the data payload itself
otherwise. -/
def extract_upload_result (data : JValue) : JValue :=
  match data with
  | JValue.obj fields =>
    match lookup_field fields "collectionId" with
    | some v => v
    | none => JValue.obj fields
  | v => v

/-- The outer `except Exception as e: raise Exception(f"File Upload
Failed: {str(e)}")` (fastgpt.py lines 486-487): every inner error reaches
the caller as a plain `Exception` wrapping the inner message. -/
def wrap_upload_error : Except PyError JValue → Except PyError JValue
  | Except.ok v => Except.ok v
  | Except.error e => Except.error (PyError.exception ("File Upload Failed: " ++ e.str_of))

/-- Assembles the outcome from the inner `try`-body result, applying the
outer wrapping and the `finally` cleanup (fastgpt.py lines 486-494): a
created temporary file is unlinked, a failing unlink is swallowed (the
file then still exists, but the result is unchanged). -/
def fc_finalize (env : FileEnv) (inner : Except PyError JValue) (tempCreated : Bool)
    (tempContent : Option (List Nat)) (uploadedFilename : Option String)
    (formMetadata : Option (List (String × JValue))) (events : List NetEvent) : FCOutcome :=
  { res := wrap_upload_error inner
    innerErr := match inner with
      | Except.error e => some e
      | Except.ok _ => none
    tempCreated := tempCreated
    tempContent := tempContent
    tempExistsAfter := tempCreated && !env.unlinkOk
    uploadedFilename := uploadedFilename
    formMetadata := formMetadata
    events := events }

/-- The upload stage shared by both branches (fastgpt.py lines 434-485):
encode the filename, build the form metadata, `requests.post` the
multipart body, `raise_for_status`, parse, and extract the collection id
(`res_json['data']` missing raises `KeyError('data')`, whose `str` is the
quoted key). -/
def fc_upload_stage (env : FileEnv) (base_url : String) (p : FCParams) (filename : String)
    (tempCreated : Bool) (tempContent : Option (List Nat)) (evts : List NetEvent) : FCOutcome :=
  let encoded := encoded_upload_filename p.name filename
  let fm := file_form_metadata p
  let events := evts ++ [NetEvent.post (base_url ++ "/core/dataset/collection/create/localFile")]
  let inner : Except PyError JValue :=
    if env.uploadOk then
      match env.uploadResp with
      | some d => Except.ok (extract_upload_result d)
      | none => Except.error (PyError.keyError (pySq ++ "data" ++ pySq))
    else Except.error (PyError.exception env.uploadErrMsg)
  fc_finalize env inner tempCreated tempContent (some encoded) (some fm) events

/-- `create_file_collection` (fastgpt.py lines 357-494).  URL branch:
derive the filename from the URL, validate the extension BEFORE any
network request, download, stage into a temporary file; local branch:
check existence first, then validate the extension; then the shared
upload stage; the `finally` cleanup and outer wrapping are applied on
every path. -/
def create_file_collection (env : FileEnv) (base_url : String) (p : FCParams) : FCOutcome :=
  if is_url_path p.file_path then
    let url_fn := url_filename_of p.file_path
    let file_ext := file_ext_of url_fn
    if file_ext ∈ ALLOWED_EXTENSIONS then
      if env.downloadOk then
        fc_upload_stage env base_url p url_fn true (some env.downloadContent)
          [NetEvent.get p.file_path]
      else
        fc_finalize env (Except.error (PyError.exception env.downloadErrMsg)) false none none
          none [NetEvent.get p.file_path]
    else
      fc_finalize env (Except.error (PyError.valueError (unsupported_format_msg file_ext)))
        false none none none []
  else
    if env.localExists p.file_path then
      let filename := os_path_basename p.file_path
      let file_ext := file_ext_of filename
      if file_ext ∈ ALLOWED_EXTENSIONS then
        fc_upload_stage env base_url p filename false none []
      else
        fc_finalize env (Except.error (PyError.valueError (unsupported_format_msg file_ext)))
          false none none none []
    else
      fc_finalize env
        (Except.error (PyError.fileNotFoundError ("文件不存在: " ++ p.file_path)))
        false none none none []

/-- Shared concrete environment for witnesses: download and upload
succeed, the service answers with a nested collection id, unlink
succeeds. -/
def sampleEnv : FileEnv :=
  { localExists := fun _ => true
    downloadOk := true
    downloadErrMsg := "connection error"
    downloadContent := [37, 80, 68, 70]
    uploadOk := true
    uploadErrMsg := "500 Server Error"
    uploadResp := some (JValue.obj [("collectionId", JValue.str "col1")])
    unlinkOk := true }

/-!
## Theorems

Helper lemmas about the payload segments and lookups, followed by the
claim theorems with their witnesses and counterexamples.
-/

theorem lookup_field_append (l₁ l₂ : List (String × JValue)) (k : String) :
    lookup_field (l₁ ++ l₂) k =
      match lookup_field l₁ k with
      | some v => some v
      | none => lookup_field l₂ k := by
  induction l₁ with
  | nil => simp [lookup_field]
  | cons hd tl ih =>
    by_cases h : hd.1 = k <;>
      simp_all [lookup_field, List.find?, h]

theorem lookup_opt_bool_seg_ne (key k : String) (v : Option Bool) (h : key ≠ k) :
    lookup_field (opt_bool_seg key v) k = none := by
  cases v <;> simp [opt_bool_seg, lookup_field, List.find?, h]

theorem lookup_chunk_param_seg_ne (csm csm2 : String) (cs isz : Int) (csp : String) (k : String)
    (h1 : k ≠ "chunkSplitMode") (h2 : k ≠ "chunkSize") (h3 : k ≠ "indexSize")
    (h4 : k ≠ "chunkSplitter") :
    lookup_field (chunk_param_seg csm csm2 cs isz csp) k = none := by
  unfold chunk_param_seg
  split <;> [skip; rfl]
  split <;> simp [lookup_field, List.find?, Ne.symm h1, Ne.symm h2, Ne.symm h3, Ne.symm h4]

theorem lookup_chunk_param_seg_not_custom (csm csm2 : String) (cs isz : Int) (csp : String)
    (k : String) (h : csm ≠ "custom") :
    lookup_field (chunk_param_seg csm csm2 cs isz csp) k = none := by
  simp [chunk_param_seg, h, lookup_field]

theorem lookup_chunk_param_seg_custom (csm2 : String) (cs isz : Int) (csp : String) :
    lookup_field (chunk_param_seg "custom" csm2 cs isz csp) "chunkSplitMode"
        = some (JValue.str csm2) ∧
      lookup_field (chunk_param_seg "custom" csm2 cs isz csp) "chunkSize"
        = some (JValue.num cs) ∧
      lookup_field (chunk_param_seg "custom" csm2 cs isz csp) "indexSize"
        = some (JValue.num isz) ∧
      lookup_field (chunk_param_seg "custom" csm2 cs isz csp) "chunkSplitter"
        = (if csp = "" then none else some (JValue.str csp)) := by
  unfold chunk_param_seg
  by_cases hcsp : csp = "" <;> simp_all [lookup_field, List.find?]

theorem lookup_qa_seg_ne (tt qa k : String) (h : k ≠ "qaPrompt") :
    lookup_field (qa_seg tt qa) k = none := by
  unfold qa_seg
  split <;> simp [lookup_field, List.find?, Ne.symm h]

theorem lookup_qa_seg_pos (tt qa : String) (h : tt = "qa" ∧ qa ≠ "") :
    lookup_field (qa_seg tt qa) "qaPrompt" = some (JValue.str qa) := by
  simp [qa_seg, h, lookup_field, List.find?]

theorem lookup_qa_seg_neg (tt qa : String) (h : ¬(tt = "qa" ∧ qa ≠ "")) :
    lookup_field (qa_seg tt qa) "qaPrompt" = none := by
  simp [qa_seg, h, lookup_field, List.find?]

theorem lookup_tags_seg_ne (tags : Option (List String)) (k : String) (h : k ≠ "tags") :
    lookup_field (tags_seg tags) k = none := by
  unfold tags_seg
  rcases tags with _ | ts
  · rfl
  · split <;> simp [lookup_field, List.find?, Ne.symm h]

theorem lookup_create_time_seg_ne (ct : Option String) (k : String) (h : k ≠ "createTime") :
    lookup_field (create_time_seg ct) k = none := by
  unfold create_time_seg
  rcases ct with _ | t
  · rfl
  · split <;> simp [lookup_field, List.find?, Ne.symm h]

theorem lookup_text_base_qaPrompt (p : TextParams) :
    lookup_field (text_base_payload p) "qaPrompt" = none := by
  simp [text_base_payload, lookup_field, List.find?]

theorem lookup_text_base_chunk (p : TextParams) (k : String)
    (h1 : k ≠ "text") (h2 : k ≠ "datasetId") (h3 : k ≠ "name") (h4 : k ≠ "parentId")
    (h5 : k ≠ "trainingType") (h6 : k ≠ "customPdfParse") (h7 : k ≠ "chunkSettingMode")
    (h8 : k ≠ "metadata") :
    lookup_field (text_base_payload p) k = none := by
  simp [text_base_payload, lookup_field, List.find?,
    Ne.symm h1, Ne.symm h2, Ne.symm h3, Ne.symm h4, Ne.symm h5, Ne.symm h6, Ne.symm h7,
    Ne.symm h8]

theorem lookup_payload_chunk_reduce (p : TextParams) (k : String)
    (h1 : k ≠ "text") (h2 : k ≠ "datasetId") (h3 : k ≠ "name") (h4 : k ≠ "parentId")
    (h5 : k ≠ "trainingType") (h6 : k ≠ "customPdfParse") (h7 : k ≠ "chunkSettingMode")
    (h8 : k ≠ "metadata") (h9 : k ≠ "qaPrompt") (h10 : k ≠ "indexPrefixTitle")
    (h11 : k ≠ "autoIndexes") (h12 : k ≠ "imageIndex") (h13 : k ≠ "tags")
    (h14 : k ≠ "createTime") :
    lookup_field (create_text_collection_payload p) k =
      lookup_field (chunk_param_seg p.chunk_setting_mode p.chunk_split_mode p.chunk_size
        p.index_size p.chunk_splitter) k := by
  simp only [create_text_collection_payload, lookup_field_append,
    lookup_text_base_chunk p k h1 h2 h3 h4 h5 h6 h7 h8,
    lookup_qa_seg_ne p.training_type p.qa_prompt k h9,
    lookup_opt_bool_seg_ne "indexPrefixTitle" k p.index_prefix_title (Ne.symm h10),
    lookup_opt_bool_seg_ne "autoIndexes" k p.auto_indexes (Ne.symm h11),
    lookup_opt_bool_seg_ne "imageIndex" k p.image_index (Ne.symm h12),
    lookup_tags_seg_ne p.tags k h13,
    lookup_create_time_seg_ne p.create_time k h14]
  cases hc : lookup_field (chunk_param_seg p.chunk_setting_mode p.chunk_split_mode p.chunk_size
      p.index_size p.chunk_splitter) k <;> simp [hc]

/-- C5 (amended): in the payload built by `create_text_collection`, when
`chunk_setting_mode` is `"auto"` none of the keys `chunkSplitMode`,
`chunkSize`, `indexSize`, `chunkSplitter` appear, regardless of the values
passed for those parameters; when it is `"custom"`, `chunkSplitMode`,
`chunkSize` and `indexSize` appear with the passed values, while
`chunkSplitter` appears (with the passed value) exactly when the passed
splitter string is non-empty. -/
theorem C5_amended_chunk_fields (p : TextParams) :
    (p.chunk_setting_mode = "auto" →
      lookup_field (create_text_collection_payload p) "chunkSplitMode" = none ∧
      lookup_field (create_text_collection_payload p) "chunkSize" = none ∧
      lookup_field (create_text_collection_payload p) "indexSize" = none ∧
      lookup_field (create_text_collection_payload p) "chunkSplitter" = none) ∧
    (p.chunk_setting_mode = "custom" →
      lookup_field (create_text_collection_payload p) "chunkSplitMode"
          = some (JValue.str p.chunk_split_mode) ∧
      lookup_field (create_text_collection_payload p) "chunkSize"
          = some (JValue.num p.chunk_size) ∧
      lookup_field (create_text_collection_payload p) "indexSize"
          = some (JValue.num p.index_size) ∧
      lookup_field (create_text_collection_payload p) "chunkSplitter"
          = (if p.chunk_splitter = "" then none else some (JValue.str p.chunk_splitter))) := by
  constructor
  · intro h
    have hne : p.chunk_setting_mode ≠ "custom" := by
      rw [h]; decide
    refine ⟨?_, ?_, ?_, ?_⟩ <;>
      rw [lookup_payload_chunk_reduce p _ (by decide) (by decide) (by decide) (by decide)
        (by decide) (by decide) (by decide) (by decide) (by decide) (by decide) (by decide)
        (by decide) (by decide) (by decide)] <;>
      exact lookup_chunk_param_seg_not_custom _ _ _ _ _ _ hne
  · intro h
    have hc := lookup_chunk_param_seg_custom p.chunk_split_mode p.chunk_size p.index_size
      p.chunk_splitter
    refine ⟨?_, ?_, ?_, ?_⟩ <;>
      rw [lookup_payload_chunk_reduce p _ (by decide) (by decide) (by decide) (by decide)
        (by decide) (by decide) (by decide) (by decide) (by decide) (by decide) (by decide)
        (by decide) (by decide) (by decide), h]
    · exact hc.1
    · exact hc.2.1
    · exact hc.2.2.1
    · exact hc.2.2.2

/-- C5 counterexample: calling `create_text_collection` with
`chunk_setting_mode="custom"` and the default (empty) `chunk_splitter`
produces a payload in which the key `chunkSplitter` does NOT appear, so it
is false that with mode `"custom"` all four chunk keys appear. -/
theorem C5_counterexample :
    lookup_field (create_text_collection_payload
      { text := "t", dataset_id := "d", name := "n", chunk_setting_mode := "custom" })
      "chunkSplitter" = none := by
  rfl

theorem C5_amended_chunk_fields_witness :
    lookup_field (create_text_collection_payload
      { text := "t", dataset_id := "d", name := "n", chunk_setting_mode := "custom",
        chunk_splitter := "#" }) "chunkSplitter" = some (JValue.str "#") := by
  have h := (C5_amended_chunk_fields
    { text := "t", dataset_id := "d", name := "n", chunk_setting_mode := "custom",
      chunk_splitter := "#" }).2 rfl
  simpa using h.2.2.2

/-- C6: in the payload built by `create_text_collection`, the key
`qaPrompt` appears if and only if `training_type` equals `"qa"` and
`qa_prompt` is a non-empty string, and when present its value is the
supplied prompt. -/
theorem C6_qa_prompt_iff (p : TextParams) :
    lookup_field (create_text_collection_payload p) "qaPrompt" =
      if p.training_type = "qa" ∧ p.qa_prompt ≠ "" then some (JValue.str p.qa_prompt)
      else none := by
  by_cases hq : p.training_type = "qa" ∧ p.qa_prompt ≠ ""
  · simp only [create_text_collection_payload, lookup_field_append,
      lookup_text_base_qaPrompt,
      lookup_chunk_param_seg_ne p.chunk_setting_mode p.chunk_split_mode p.chunk_size
        p.index_size p.chunk_splitter "qaPrompt" (by decide) (by decide) (by decide) (by decide),
      lookup_opt_bool_seg_ne "indexPrefixTitle" "qaPrompt" p.index_prefix_title (by decide),
      lookup_opt_bool_seg_ne "autoIndexes" "qaPrompt" p.auto_indexes (by decide),
      lookup_opt_bool_seg_ne "imageIndex" "qaPrompt" p.image_index (by decide),
      lookup_tags_seg_ne p.tags "qaPrompt" (by decide),
      lookup_create_time_seg_ne p.create_time "qaPrompt" (by decide),
      lookup_qa_seg_pos p.training_type p.qa_prompt hq, if_pos hq]
  · simp only [create_text_collection_payload, lookup_field_append,
      lookup_text_base_qaPrompt,
      lookup_chunk_param_seg_ne p.chunk_setting_mode p.chunk_split_mode p.chunk_size
        p.index_size p.chunk_splitter "qaPrompt" (by decide) (by decide) (by decide) (by decide),
      lookup_opt_bool_seg_ne "indexPrefixTitle" "qaPrompt" p.index_prefix_title (by decide),
      lookup_opt_bool_seg_ne "autoIndexes" "qaPrompt" p.auto_indexes (by decide),
      lookup_opt_bool_seg_ne "imageIndex" "qaPrompt" p.image_index (by decide),
      lookup_tags_seg_ne p.tags "qaPrompt" (by decide),
      lookup_create_time_seg_ne p.create_time "qaPrompt" (by decide),
      lookup_qa_seg_neg p.training_type p.qa_prompt hq, if_neg hq]

/-- C4 counterexample: the response body `{"code": 0, "message": "boom"}`
has a service-level status code different from 200 and 201, yet `_request`
does NOT convert it into an error — `res_json.get('code')` is falsy for 0,
so the body is returned as a success.  This refutes the claim that ANY
code other than 200 or 201 yields a request-failure error. -/
theorem C4_counterexample :
    request_result none [("code", JValue.num 0), ("message", JValue.str "boom")] =
      Except.ok [("code", JValue.num 0), ("message", JValue.str "boom")] ∧
    (0 : Int) ≠ 200 ∧ (0 : Int) ≠ 201 := by
  refine ⟨rfl, by decide, by decide⟩

/-- C4 (amended): a response body whose service-level status code is a
truthy value other than 200 or 201 (for integer codes: any nonzero code
other than 200 and 201) is converted by `_request` into the uniform
`"Request Failed: ..."` error carrying the body's message, even when the
HTTP transport succeeded (`httpError = none`, e.g. transport status 200);
in particular `{"code": 500, "message": "boom"}` yields an error whose
message contains the substring `"boom"`.  A code of 0 (or an absent code)
is falsy and passes through as success. -/
theorem C4_amended_service_code_failure (body : List (String × JValue)) (c : Int)
    (hc : lookup_field body "code" = some (JValue.num c))
    (h0 : c ≠ 0) (h200 : c ≠ 200) (h201 : c ≠ 201) :
    request_result none body =
      Except.error ("Request Failed: " ++
        ("FastGPT API Error: " ++ py_str_get (lookup_field body "message"))) ∧
    request_result none [("code", JValue.num 500), ("message", JValue.str "boom")] =
      Except.error "Request Failed: FastGPT API Error: boom" ∧
    strContains "Request Failed: FastGPT API Error: boom" "boom" = true := by
  refine ⟨?_, rfl, by decide⟩
  unfold request_result
  rw [hc]
  simp [jvalue_truthy, code_in_success_list, h0, h200, h201]

theorem C4_amended_service_code_failure_witness :
    request_result none [("code", JValue.num 500), ("message", JValue.str "boom")] =
      Except.error "Request Failed: FastGPT API Error: boom" :=
  (C4_amended_service_code_failure [("code", JValue.num 500), ("message", JValue.str "boom")]
    500 rfl (by decide) (by decide) (by decide)).2.1

/-- C8: deserializing a dataset-detail response dictionary with `_id`
`"d1"`, `type` `"dataset"`, `name` `"KB"`, complete `vectorModel` and
`agentModel` objects, `canWrite` true and `isOwner` false succeeds and
produces a record whose `id` field is `"d1"` and whose `canWrite` field is
true. -/
theorem C8_dataset_detail_round_trip :
    (DatasetDetail.from_dict
      [("_id", JValue.str "d1"),
       ("type", JValue.str "dataset"),
       ("name", JValue.str "KB"),
       ("vectorModel", JValue.obj
         [("model", JValue.str "m"), ("name", JValue.str "n"),
          ("charsPointsPrice", JValue.num 0), ("defaultToken", JValue.num 100)]),
       ("agentModel", JValue.obj
         [("model", JValue.str "gpt"), ("name", JValue.str "agent"),
          ("charsPointsPrice", JValue.num 0), ("defaultToken", JValue.num 8000)]),
       ("canWrite", JValue.bool true),
       ("isOwner", JValue.bool false)]).map (fun d => (d.id, d.canWrite)) =
      Except.ok (JValue.str "d1", JValue.bool true) := by
  rfl

/-- C1: for a `create_file_collection` call on a URL source whose download
succeeds, a temporary file is created staging the downloaded bytes; when
the call returns — with a collection id or an error — the temporary file
no longer exists (its unlink succeeding), and a failure of the deletion
itself is swallowed: the result handed to the caller is unchanged. -/
theorem C1_temp_file_cleanup (env : FileEnv) (base_url : String) (p : FCParams)
    (hurl : is_url_path p.file_path = true)
    (hext : file_ext_of (url_filename_of p.file_path) ∈ ALLOWED_EXTENSIONS)
    (hdl : env.downloadOk = true) :
    (create_file_collection env base_url p).tempCreated = true ∧
    (create_file_collection env base_url p).tempContent = some env.downloadContent ∧
    (env.unlinkOk = true → (create_file_collection env base_url p).tempExistsAfter = false) ∧
    (create_file_collection { env with unlinkOk := false } base_url p).res =
      (create_file_collection env base_url p).res := by
  simp [create_file_collection, fc_upload_stage, fc_finalize, hurl, hext, hdl]

theorem C1_temp_file_cleanup_witness :
    (create_file_collection sampleEnv "http://b/api"
        { dataset_id := "d", file_path := "https://host/doc.pdf" }).tempCreated = true ∧
    (create_file_collection sampleEnv "http://b/api"
        { dataset_id := "d", file_path := "https://host/doc.pdf" }).tempContent =
      some sampleEnv.downloadContent ∧
    (sampleEnv.unlinkOk = true →
      (create_file_collection sampleEnv "http://b/api"
          { dataset_id := "d", file_path := "https://host/doc.pdf" }).tempExistsAfter = false) ∧
    (create_file_collection { sampleEnv with unlinkOk := false } "http://b/api"
        { dataset_id := "d", file_path := "https://host/doc.pdf" }).res =
      (create_file_collection sampleEnv "http://b/api"
          { dataset_id := "d", file_path := "https://host/doc.pdf" }).res :=
  C1_temp_file_cleanup sampleEnv "http://b/api"
    { dataset_id := "d", file_path := "https://host/doc.pdf" } rfl (by decide) rfl

/-- C2 counterexample: for `file_path="https://host/doc.jpg"` the error
that reaches the caller is a plain `Exception` — the same kind as the
generic "File Upload Failed" wrapper — not a distinguishable
`UnsupportedFormat`-kind error: the inner `ValueError` is swallowed by
the catch-all at fastgpt.py lines 486-487 and re-raised as `Exception`. -/
theorem C2_counterexample :
    (create_file_collection sampleEnv "http://b/api"
        { dataset_id := "d", file_path := "https://host/doc.jpg" }).res =
      Except.error (PyError.exception
        ("File Upload Failed: " ++ unsupported_format_msg "jpg")) ∧
    (create_file_collection sampleEnv "http://b/api"
        { dataset_id := "d", file_path := "https://host/doc.jpg" }).innerErr =
      some (PyError.valueError (unsupported_format_msg "jpg")) := by
  constructor <;> rfl

/-- C2 (amended): when `create_file_collection` fails because the
extension is not allowed or because a local path does not exist, the
inner `ValueError` / `FileNotFoundError` is caught by the catch-all and
the caller receives a plain `Exception` whose message is the
"File Upload Failed: " wrapper around the inner message — the kinds are
distinguishable only by message text, not by exception type; for
`file_path="https://host/doc.jpg"` that message mentions the extension
"jpg" and all six allowed formats. -/
theorem C2_amended_generic_wrapper (env : FileEnv) (base_url : String) (p : FCParams) :
    (is_url_path p.file_path = true →
      file_ext_of (url_filename_of p.file_path) ∉ ALLOWED_EXTENSIONS →
      (create_file_collection env base_url p).res =
        Except.error (PyError.exception ("File Upload Failed: " ++
          unsupported_format_msg (file_ext_of (url_filename_of p.file_path))))) ∧
    (is_url_path p.file_path = false →
      env.localExists p.file_path = false →
      (create_file_collection env base_url p).res =
        Except.error (PyError.exception ("File Upload Failed: " ++
          ("文件不存在: " ++ p.file_path)))) ∧
    strContains (unsupported_format_msg "jpg") "jpg" = true ∧
    ALLOWED_EXTENSIONS.all (fun e => strContains (unsupported_format_msg "jpg") e) = true := by
  refine ⟨?_, ?_, by decide, by decide⟩
  · intro hurl hext
    simp [create_file_collection, fc_finalize, wrap_upload_error, hurl, hext, PyError.str_of]
  · intro hurl hne
    simp [create_file_collection, fc_finalize, wrap_upload_error, hurl, hne, PyError.str_of]

theorem C2_amended_generic_wrapper_witness :
    (create_file_collection sampleEnv "http://b/api"
        { dataset_id := "d", file_path := "https://host/doc.jpg" }).res =
      Except.error (PyError.exception ("File Upload Failed: " ++
        unsupported_format_msg (file_ext_of (url_filename_of "https://host/doc.jpg")))) :=
  (C2_amended_generic_wrapper sampleEnv "http://b/api"
      { dataset_id := "d", file_path := "https://host/doc.jpg" }).1 rfl (by decide)

/-- C3: for every URL source whose derived extension is not in the
allow-set, `create_file_collection` raises the unsupported-format
`ValueError` before performing any network request: the event trace is
empty (no download of the URL, no upload), no temporary file is created,
and the caller receives the wrapped failure. -/
theorem C3_unsupported_ext_no_network (env : FileEnv) (base_url : String) (p : FCParams)
    (hurl : is_url_path p.file_path = true)
    (hext : file_ext_of (url_filename_of p.file_path) ∉ ALLOWED_EXTENSIONS) :
    (create_file_collection env base_url p).events = [] ∧
    (create_file_collection env base_url p).tempCreated = false ∧
    (create_file_collection env base_url p).innerErr =
      some (PyError.valueError
        (unsupported_format_msg (file_ext_of (url_filename_of p.file_path)))) ∧
    (create_file_collection env base_url p).res =
      Except.error (PyError.exception ("File Upload Failed: " ++
        unsupported_format_msg (file_ext_of (url_filename_of p.file_path)))) := by
  simp [create_file_collection, fc_finalize, wrap_upload_error, hurl, hext, PyError.str_of]

theorem C3_unsupported_ext_no_network_witness :
    (create_file_collection sampleEnv "http://b/api"
        { dataset_id := "d", file_path := "https://host/archive.zip" }).events = [] ∧
    (create_file_collection sampleEnv "http://b/api"
        { dataset_id := "d", file_path := "https://host/archive.zip" }).tempCreated = false ∧
    (create_file_collection sampleEnv "http://b/api"
        { dataset_id := "d", file_path := "https://host/archive.zip" }).innerErr =
      some (PyError.valueError
        (unsupported_format_msg (file_ext_of (url_filename_of "https://host/archive.zip")))) ∧
    (create_file_collection sampleEnv "http://b/api"
        { dataset_id := "d", file_path := "https://host/archive.zip" }).res =
      Except.error (PyError.exception ("File Upload Failed: " ++
        unsupported_format_msg (file_ext_of (url_filename_of "https://host/archive.zip")))) :=
  C3_unsupported_ext_no_network sampleEnv "http://b/api"
    { dataset_id := "d", file_path := "https://host/archive.zip" } rfl (by decide)

/-- C7: on a successful upload, `create_file_collection` returns the
nested `collectionId` field of the response's data payload when that
payload is an object containing it, and otherwise returns the data
payload itself; both response shapes yield a normal return, not an
error. -/
theorem C7_collection_id_fallback (env : FileEnv) (base_url : String) (p : FCParams)
    (d : JValue) (hok : env.uploadOk = true) (hdata : env.uploadResp = some d)
    (hreach :
      (is_url_path p.file_path = true ∧
        file_ext_of (url_filename_of p.file_path) ∈ ALLOWED_EXTENSIONS ∧
        env.downloadOk = true) ∨
      (is_url_path p.file_path = false ∧ env.localExists p.file_path = true ∧
        file_ext_of (os_path_basename p.file_path) ∈ ALLOWED_EXTENSIONS)) :
    (create_file_collection env base_url p).res = Except.ok (extract_upload_result d) ∧
    (∀ fields v, d = JValue.obj fields → lookup_field fields "collectionId" = some v →
      (create_file_collection env base_url p).res = Except.ok v) ∧
    (∀ fields, d = JValue.obj fields → lookup_field fields "collectionId" = none →
      (create_file_collection env base_url p).res = Except.ok d) := by
  have hres : (create_file_collection env base_url p).res =
      Except.ok (extract_upload_result d) := by
    rcases hreach with ⟨hurl, hext, hdl⟩ | ⟨hurl, hloc, hext⟩
    · simp [create_file_collection, fc_upload_stage, fc_finalize, wrap_upload_error,
        hurl, hext, hdl, hok, hdata]
    · simp [create_file_collection, fc_upload_stage, fc_finalize, wrap_upload_error,
        hurl, hext, hloc, hok, hdata]
  refine ⟨hres, ?_, ?_⟩
  · intro fields v hd hv
    rw [hres, hd]
    simp [extract_upload_result, hv]
  · intro fields hd hv
    rw [hres, hd]
    simp [extract_upload_result, hv]

theorem C7_collection_id_fallback_witness :
    (create_file_collection sampleEnv "http://b/api"
        { dataset_id := "d", file_path := "/tmp/a.md" }).res =
      Except.ok (extract_upload_result
        (JValue.obj [("collectionId", JValue.str "col1")])) :=
  (C7_collection_id_fallback sampleEnv "http://b/api"
    { dataset_id := "d", file_path := "/tmp/a.md" }
    (JValue.obj [("collectionId", JValue.str "col1")]) rfl rfl
    (Or.inr ⟨rfl, rfl, by decide⟩)).1

/-- C9: for a local (non-URL) source, `create_file_collection` checks
filesystem existence before extension validation: for every nonexistent
local path the inner error raised is the `FileNotFoundError`, never the
unsupported-format `ValueError`, whatever the path's extension; no
network request is made. -/
theorem C9_not_found_before_extension (env : FileEnv) (base_url : String) (p : FCParams)
    (hurl : is_url_path p.file_path = false)
    (hne : env.localExists p.file_path = false) :
    (create_file_collection env base_url p).innerErr =
      some (PyError.fileNotFoundError ("文件不存在: " ++ p.file_path)) ∧
    (∀ m, (create_file_collection env base_url p).innerErr ≠
      some (PyError.valueError m)) ∧
    (create_file_collection env base_url p).events = [] := by
  have h : (create_file_collection env base_url p).innerErr =
      some (PyError.fileNotFoundError ("文件不存在: " ++ p.file_path)) := by
    simp [create_file_collection, fc_finalize, hurl, hne]
  refine ⟨h, ?_, ?_⟩
  · intro m hm
    rw [h] at hm
    exact PyError.noConfusion (Option.some.inj hm)
  · simp [create_file_collection, fc_finalize, hurl, hne]

theorem C9_not_found_before_extension_witness :
    (create_file_collection { sampleEnv with localExists := fun _ => false } "http://b/api"
        { dataset_id := "d", file_path := "/tmp/missing.jpg" }).innerErr =
      some (PyError.fileNotFoundError ("文件不存在: " ++ "/tmp/missing.jpg")) :=
  (C9_not_found_before_extension { sampleEnv with localExists := fun _ => false }
    "http://b/api" { dataset_id := "d", file_path := "/tmp/missing.jpg" } rfl rfl).1

/-- C10: a caller-supplied name override equal to the empty string is
treated exactly like no override — the whole call outcome is the same and
the upload filename falls back to the derived display name; a non-empty
override is used as the name; and the chosen name is percent-encoded with
an empty safe set (`quote(..., safe='')`), so even `/` — exempt under
`quote`'s default — is encoded. -/
theorem C10_name_override_encoding (env : FileEnv) (base_url : String) (p : FCParams) :
    create_file_collection env base_url { p with name := some "" } =
      create_file_collection env base_url { p with name := none } ∧
    (∀ n filename, n ≠ "" →
      encoded_upload_filename (some n) filename = py_quote_safe_empty n) ∧
    (∀ filename, encoded_upload_filename none filename = py_quote_safe_empty filename) ∧
    (is_url_path p.file_path = false → env.localExists p.file_path = true →
      file_ext_of (os_path_basename p.file_path) ∈ ALLOWED_EXTENSIONS →
      (create_file_collection env base_url p).uploadedFilename =
        some (encoded_upload_filename p.name (os_path_basename p.file_path))) ∧
    py_quote_safe_empty "/" = "%2F" := by
  refine ⟨?_, ?_, ?_, ?_, by decide⟩
  · obtain ⟨did, fp, tt, nm, pid, ipt, cpp, ai, ii, csm, csm2, cs, isz, csp, qa, tg, ct, md⟩ := p
    rfl
  · intro n filename hn
    simp [encoded_upload_filename, chosen_upload_name, hn]
  · intro filename
    rfl
  · intro hurl hloc hext
    simp [create_file_collection, fc_upload_stage, fc_finalize, hurl, hloc, hext]

theorem C10_name_override_encoding_witness :
    encoded_upload_filename (some "my report") "a.md" = py_quote_safe_empty "my report" ∧
    create_file_collection sampleEnv "http://b/api"
        { dataset_id := "d", file_path := "/tmp/a.md", name := some "" } =
      create_file_collection sampleEnv "http://b/api"
        { dataset_id := "d", file_path := "/tmp/a.md", name := none } :=
  ⟨(C10_name_override_encoding sampleEnv "http://b/api"
      { dataset_id := "d", file_path := "/tmp/a.md" }).2.1 "my report" "a.md" (by decide),
   (C10_name_override_encoding sampleEnv "http://b/api"
      { dataset_id := "d", file_path := "/tmp/a.md" }).1⟩
